import Mathlib

/-!
Shallow embedding of `your-ai-council_server_python/main.py`: the MCP request
handler `handle_mcp_request` of the "Your AI Council" FastAPI server, together
with the constants it serves (tool metadata, the pydantic-generated input
schema, the three hard-coded council members).

Modelling conventions:
* JSON values are the inductive `Json` below; JSON numbers are modelled as
  integers (no claim depends on non-integer numerics).
* The request body is a JSON object, modelled as an association list
  `List (String × Json)` (FastAPI's `request: Dict[str, Any]` guarantees the
  top level is a dict).  Python's `dict.get(k)` returns `None` both when the
  key is absent and when it maps to JSON `null`; `pyGetD` mirrors this by
  defaulting the `Option` returned by lookup.
* Exceptions raised inside the `try:` block (pydantic `ValidationError`,
  `TypeError` from `**` on a non-mapping, `AttributeError` from `.get` on a
  non-dict `params`, `FileNotFoundError` from the widget template) are
  modelled with `Except PyExc`; `handle_mcp_request` catches all of them and
  produces the `-32603` "Internal error" envelope, exactly as the blanket
  `except Exception` clause does.
* The filesystem state the handler reads (existence and content of
  `assets/your-ai-council.html`) is an explicit `Env` parameter.
-/

/-- JSON values as decoded by FastAPI into Python objects. -/
inductive Json where
  | null : Json
  | bool : Bool → Json
  | num : Int → Json
  | str : String → Json
  | arr : List Json → Json
  | obj : List (String × Json) → Json
deriving Repr

/-- Lookup of a key in a JSON object body (first occurrence; Python dicts
have unique keys, so the association lists of interest are duplicate-free). -/
def olookup : List (String × Json) → String → Option Json
  | [], _ => none
  | (k2, v) :: rest, k => if k = k2 then some v else olookup rest k

/-- Python `d.get(k, dflt)` on a decoded JSON object: the stored value when
the key is present (even when that value is JSON null), `dflt` otherwise. -/
def pyGetD (d : List (String × Json)) (k : String) (dflt : Json) : Json :=
  (olookup d k).getD dflt

/-- Field access on a `Json` value that is an object; `none` otherwise. -/
def Json.getField : Json → String → Option Json
  | .obj kvs, k => olookup kvs k
  | _, _ => none

/-- Whether a `Json` value is a JSON string. -/
def Json.isStr : Json → Bool
  | .str _ => true
  | _ => false

/-- Python `x == "lit"` for a decoded JSON value `x`: true exactly when `x`
is the string `"lit"` (comparison of a non-string with a string is false). -/
def Json.eqStr : Json → String → Bool
  | .str s, t => s = t
  | _, _ => false

mutual
/-- Python `repr()` of a decoded JSON value, used by the f-strings in the
error messages (`str()` of a container falls back to `repr()`). -/
def pyRepr : Json → String
  | .null => "None"
  | .bool true => "True"
  | .bool false => "False"
  | .num n => toString n
  | .str s => "\x27" ++ s ++ "\x27"
  | .arr xs => "[" ++ String.intercalate ", " (pyReprList xs) ++ "]"
  | .obj kvs => "\x7b" ++ String.intercalate ", " (pyReprObj kvs) ++ "\x7d"

/-- `repr()` of each element of a decoded JSON array. -/
def pyReprList : List Json → List String
  | [] => []
  | x :: xs => pyRepr x :: pyReprList xs

/-- `repr()` of each entry of a decoded JSON object. -/
def pyReprObj : List (String × Json) → List String
  | [] => []
  | (k, v) :: kvs => ("\x27" ++ k ++ "\x27: " ++ pyRepr v) :: pyReprObj kvs
end

/-- Python `str()` of a decoded JSON value: a string prints as itself, every
other value prints as its `repr()`. -/
def pyStr : Json → String
  | .str s => s
  | j => pyRepr j

/-- Exceptions that the `try:` block of `handle_mcp_request` can raise. -/
inductive PyExc where
  | attributeError : PyExc
  | typeError : PyExc
  | validationError : PyExc
  | fileNotFoundError : PyExc
deriving Repr, DecidableEq

/-- Filesystem state read by the handler: whether
`assets/your-ai-council.html` exists, and its text when it does. -/
structure Env where
  templateExists : Bool
  templateHtml : String
deriving Repr, DecidableEq

/-- Embeds `_load_widget_html`: returns the template text, raising
`FileNotFoundError` when the asset is missing. -/
def load_widget_html (env : Env) : Except PyExc String :=
  if env.templateExists then Except.ok env.templateHtml
  else Except.error PyExc.fileNotFoundError

/-- Embeds `_get_tool_metadata()`: the constant metadata dict attached to the
tool descriptor and to every successful `tools/call` result. -/
def toolMetadata : Json :=
  Json.obj
    [("openai/outputTemplate", Json.str "app://your-ai-council.html"),
     ("openai/toolInvocation/invoking", Json.str "Consulting the AI Council"),
     ("openai/toolInvocation/invoked", Json.str "Council wisdom received"),
     ("openai/widgetAccessible", Json.bool true),
     ("openai/resultCanProduceWidget", Json.bool true),
     ("openai/toolEnabled", Json.bool true),
     ("annotations",
      Json.obj
        [("destructiveHint", Json.bool false),
         ("openWorldHint", Json.bool false),
         ("readOnlyHint", Json.bool true)])]

/-- The JSON schema produced by `CouncilQuestionInput.model_json_schema()`
(pydantic v2 output for a single required `question: str` field with
`min_length=1`). -/
def councilQuestionInputSchema : Json :=
  Json.obj
    [("description", Json.str "Input model for council question requests."),
     ("properties",
      Json.obj
        [("question",
          Json.obj
            [("description", Json.str "The question to ask the AI council"),
             ("minLength", Json.num 1),
             ("title", Json.str "Question"),
             ("type", Json.str "string")])]),
     ("required", Json.arr [Json.str "question"]),
     ("title", Json.str "CouncilQuestionInput"),
     ("type", Json.str "object")]

/-- The serialized `members` list of the hard-coded council response: three
fixed `CouncilMember` entries, dumped in declaration order
(`name`, `role`, `opinion`). -/
def councilMembersJson : Json :=
  Json.arr
    [Json.obj
       [("name", Json.str "Dr. Sarah Chen"),
        ("role", Json.str "Strategic Advisor"),
        ("opinion", Json.str "This is a great opportunity! Consider the long-term implications and stakeholder impact carefully.")],
     Json.obj
       [("name", Json.str "Marcus Rodriguez"),
        ("role", Json.str "Technical Expert"),
        ("opinion", Json.str "From a technical standpoint, this is feasible. Focus on implementation challenges and scalability.")],
     Json.obj
       [("name", Json.str "Alex Thompson"),
        ("role", Json.str "User Experience Specialist"),
        ("opinion", Json.str "Users will love this approach! Make sure it solves real problems and provides clear value.")]]

/-- The single tool descriptor returned by `tools/list`. -/
def toolDescriptor : Json :=
  Json.obj
    [("name", Json.str "ask_council"),
     ("title", Json.str "Ask AI Council"),
     ("description", Json.str "Get expert advice from three AI council members with different perspectives. Use this when you need strategic, technical, or user experience guidance on any question or decision."),
     ("inputSchema", councilQuestionInputSchema),
     ("_meta", toolMetadata),
     ("openai", Json.obj [("result", Json.obj [("structured", Json.bool true)])])]

/-- Embeds `CouncilQuestionInput(**tool_args)`: pydantic validation of the
tool arguments.  A non-mapping raises `TypeError` (Python `**` unpacking);
a mapping whose `question` is missing, not a string, or empty raises
`ValidationError` (`min_length=1`); extra keys are ignored (pydantic
default).  On success returns the question string. -/
def councilQuestionInput (tool_args : Json) : Except PyExc String :=
  match tool_args with
  | Json.obj kvs =>
    match olookup kvs "question" with
    | some (Json.str q) =>
      if 1 ≤ q.length then Except.ok q else Except.error PyExc.validationError
    | some _ => Except.error PyExc.validationError
    | none => Except.error PyExc.validationError
  | _ => Except.error PyExc.typeError

/-- The constant `capabilities` object of the `initialize` result. -/
def capabilitiesJson : Json :=
  Json.obj
    [("tools", Json.obj [("call", Json.bool true)]),
     ("resources", Json.obj [("list", Json.bool true), ("read", Json.bool true)])]

/-- The constant `serverInfo` object of the `initialize` result. -/
def serverInfoJson : Json :=
  Json.obj [("name", Json.str "Your AI Council"), ("version", Json.str "0.1.0")]

/-- A JSON-RPC error envelope as built by `handle_mcp_request`:
`jsonrpc`, `id` (the value of `request.get("id")`, i.e. null when absent),
and an `error` object with `code` and `message`. -/
def errEnvelope (idv : Json) (code : Int) (message : String) : Json :=
  Json.obj
    [("jsonrpc", Json.str "2.0"),
     ("id", idv),
     ("error", Json.obj [("code", Json.num code), ("message", Json.str message)])]

/-- Embeds the `try:` block of `handle_mcp_request`: dispatch on
`request.get("method")` and build the branch's response.  `Except.ok none`
is Python `return None` (no response body); `Except.error e` is an exception
escaping to the `except` clause. -/
def handleTry (env : Env) (request : List (String × Json)) : Except PyExc (Option Json) :=
  let method := pyGetD request "method" Json.null
  let params := (olookup request "params").getD (Json.obj [])
  if method.eqStr "initialize" then
    match params with
    | Json.obj pkvs =>
      let protocolVersion := pyGetD pkvs "protocolVersion" (Json.str "2025-03-26")
      let result :=
        Json.obj
          [("protocolVersion", protocolVersion),
           ("capabilities", capabilitiesJson),
           ("serverInfo", serverInfoJson)]
      let response :=
        match olookup request "id" with
        | some v => [("jsonrpc", Json.str "2.0"), ("result", result), ("id", v)]
        | none => [("jsonrpc", Json.str "2.0"), ("result", result)]
      Except.ok (some (Json.obj response))
    | _ => Except.error PyExc.attributeError
  else if method.eqStr "notifications/initialized" then
    Except.ok none
  else if method.eqStr "resources/read" then
    match params with
    | Json.obj pkvs =>
      let uri := pyGetD pkvs "uri" Json.null
      if uri.eqStr "app://your-ai-council.html" then
        match load_widget_html env with
        | Except.ok html =>
          Except.ok (some (Json.obj
            [("jsonrpc", Json.str "2.0"),
             ("id", pyGetD request "id" Json.null),
             ("result",
              Json.obj
                [("contents",
                  Json.arr
                    [Json.obj
                       [("uri", uri),
                        ("mimeType", Json.str "text/html"),
                        ("text", Json.str html)]])])]))
        | Except.error e => Except.error e
      else
        Except.ok (some (errEnvelope (pyGetD request "id" Json.null) (-32602)
          ("Resource \x27" ++ pyStr uri ++ "\x27 not found")))
    | _ => Except.error PyExc.attributeError
  else if method.eqStr "tools/list" then
    Except.ok (some (Json.obj
      [("jsonrpc", Json.str "2.0"),
       ("id", pyGetD request "id" Json.null),
       ("result", Json.obj [("tools", Json.arr [toolDescriptor])])]))
  else if method.eqStr "tools/call" then
    match params with
    | Json.obj pkvs =>
      let tool_name := pyGetD pkvs "name" Json.null
      let tool_args := pyGetD pkvs "arguments" (Json.obj [])
      if tool_name.eqStr "ask_council" then
        match councilQuestionInput tool_args with
        | Except.ok question =>
          let structured_content :=
            Json.obj [("question", Json.str question), ("members", councilMembersJson)]
          Except.ok (some (Json.obj
            [("jsonrpc", Json.str "2.0"),
             ("id", pyGetD request "id" Json.null),
             ("result",
              Json.obj
                [("content",
                  Json.arr
                    [Json.obj
                       [("type", Json.str "text"),
                        ("text", Json.str ("Your AI Council considered the question: " ++ question))]]),
                 ("structuredContent", structured_content),
                 ("_meta", toolMetadata)])]))
        | Except.error e => Except.error e
      else
        Except.ok (some (errEnvelope (pyGetD request "id" Json.null) (-32601)
          ("Method \x27" ++ pyStr tool_name ++ "\x27 not found")))
    | _ => Except.error PyExc.attributeError
  else
    Except.ok (some (errEnvelope (pyGetD request "id" Json.null) (-32601)
      ("Method \x27" ++ pyStr method ++ "\x27 not found")))

/-- Embeds `handle_mcp_request` (POST /mcp): runs the `try:` body and maps any
escaping exception to the `-32603` "Internal error" envelope, as the blanket
`except Exception` clause does.  `none` is "no response body". -/
def handle_mcp_request (env : Env) (request : List (String × Json)) : Option Json :=
  match handleTry env request with
  | Except.ok r => r
  | Except.error _ =>
    some (errEnvelope (pyGetD request "id" Json.null) (-32603) "Internal error")

/-- A concrete environment in which the widget template exists. -/
def env0 : Env := ⟨true, "<html><body>widget</body></html>"⟩

/-- The `id` field of a response envelope. -/
def respIdField (r : Json) : Option Json := r.getField "id"

/-- The `error.code` field of a response envelope. -/
def respErrorCode (r : Json) : Option Json :=
  (r.getField "error").bind (fun e => e.getField "code")

/-- The `result.structuredContent.members` field of a response envelope,
wrapped over the optional response. -/
def respMembers (o : Option Json) : Option Json :=
  o.bind (fun r => (r.getField "result").bind (fun res =>
    (res.getField "structuredContent").bind (fun sc => sc.getField "members")))

/-- A named field of the `result` object of an optional response. -/
def respResultField (o : Option Json) (k : String) : Option Json :=
  o.bind (fun r => (r.getField "result").bind (fun res => res.getField k))

/-- The names of the members in a serialized council `members` array. -/
def memberNames : Json → Option (List Json)
  | Json.arr ms => some (ms.map (fun m => (m.getField "name").getD Json.null))
  | _ => none

/-- The `text` field of the first entry of the `result.content` array of an
optional response. -/
def respTextContent (o : Option Json) : Option Json :=
  (respResultField o "content").bind (fun c =>
    match c with
    | Json.arr (x :: _) => x.getField "text"
    | _ => none)

/-- Whether a response envelope carries exactly one of `result` / `error`. -/
def goodEnvelope (r : Json) : Bool :=
  ((r.getField "result").isSome) != ((r.getField "error").isSome)

/-- The five method names that `handle_mcp_request` dispatches on. -/
def knownMethodNames : List String :=
  ["initialize", "notifications/initialized", "resources/read", "tools/list", "tools/call"]

/-- The success envelope of a `tools/call` of `ask_council` with validated
question `q` and correlation value `idv` (`request.get("id")`). -/
def askCouncilSuccess (q : String) (idv : Json) : Json :=
  Json.obj
    [("jsonrpc", Json.str "2.0"),
     ("id", idv),
     ("result",
      Json.obj
        [("content",
          Json.arr
            [Json.obj
               [("type", Json.str "text"),
                ("text", Json.str ("Your AI Council considered the question: " ++ q))]]),
         ("structuredContent",
          Json.obj [("question", Json.str q), ("members", councilMembersJson)]),
         ("_meta", toolMetadata)])]

/-- The `initialize` result object for parameter dict `pkvs`. -/
def initResult (pkvs : List (String × Json)) : Json :=
  Json.obj
    [("protocolVersion", pyGetD pkvs "protocolVersion" (Json.str "2025-03-26")),
     ("capabilities", capabilitiesJson),
     ("serverInfo", serverInfoJson)]

/-- A value that is not a JSON string compares unequal to every string. -/
theorem eqStr_false_of_not_isStr (v : Json) (h : v.isStr = false) (s : String) :
    v.eqStr s = false := by
  cases v <;> simp_all [Json.isStr, Json.eqStr]

/-- Dispatch falls through to the final `else` branch whenever the method
value compares unequal to all five known method names, producing the
`-32601` method-not-found envelope. -/
theorem handle_unknown (env : Env) (request : List (String × Json))
    (hm : ∀ s ∈ knownMethodNames, (pyGetD request "method" Json.null).eqStr s = false) :
    handle_mcp_request env request =
      some (errEnvelope (pyGetD request "id" Json.null) (-32601)
        ("Method \x27" ++ pyStr (pyGetD request "method" Json.null) ++ "\x27 not found")) := by
  have h1 := hm "initialize" (by simp [knownMethodNames])
  have h2 := hm "notifications/initialized" (by simp [knownMethodNames])
  have h3 := hm "resources/read" (by simp [knownMethodNames])
  have h4 := hm "tools/list" (by simp [knownMethodNames])
  have h5 := hm "tools/call" (by simp [knownMethodNames])
  simp only [handle_mcp_request, handleTry, h1, h2, h3, h4, h5, if_false, Bool.false_eq_true]

/-- C5: for every request whose method value is none of the five known method
names, `handle_mcp_request` returns an error envelope with code `-32601`
whose `id` field echoes `request.get("id")`. -/
theorem c5_unknown_method_error (env : Env) (request : List (String × Json))
    (hm : ∀ s ∈ knownMethodNames, (pyGetD request "method" Json.null).eqStr s = false) :
    handle_mcp_request env request =
      some (errEnvelope (pyGetD request "id" Json.null) (-32601)
        ("Method \x27" ++ pyStr (pyGetD request "method" Json.null) ++ "\x27 not found"))
    ∧ respErrorCode (errEnvelope (pyGetD request "id" Json.null) (-32601)
        ("Method \x27" ++ pyStr (pyGetD request "method" Json.null) ++ "\x27 not found")) =
      some (Json.num (-32601))
    ∧ respIdField (errEnvelope (pyGetD request "id" Json.null) (-32601)
        ("Method \x27" ++ pyStr (pyGetD request "method" Json.null) ++ "\x27 not found")) =
      some (pyGetD request "id" Json.null) :=
  ⟨handle_unknown env request hm, rfl, rfl⟩

/-- Witness for C5 at the concrete unknown method `"bogus"` with id 7. -/
theorem c5_unknown_method_error_witness :
    handle_mcp_request env0 [("method", Json.str "bogus"), ("id", Json.num 7)] =
      some (errEnvelope (Json.num 7) (-32601) "Method \x27bogus\x27 not found") :=
  (c5_unknown_method_error env0 [("method", Json.str "bogus"), ("id", Json.num 7)]
    (by decide)).1

/-- C2 counterexample: a request with no `method` field at all is answered
with the very same `-32601` method-not-found envelope shape that unknown
method names receive, not with a distinct malformed-envelope error. -/
theorem c2_no_distinct_malformed_error :
    handle_mcp_request env0 [("id", Json.num 7)] =
      some (errEnvelope (Json.num 7) (-32601) "Method \x27None\x27 not found")
    ∧ handle_mcp_request env0 [("id", Json.num 7), ("method", Json.str "bogus")] =
      some (errEnvelope (Json.num 7) (-32601) "Method \x27bogus\x27 not found") :=
  ⟨rfl, rfl⟩

/-- C2 (amended): for every request whose `method` field is missing or not a
string, `handle_mcp_request` returns the same `-32601` method-not-found
error envelope that unknown method names receive; there is no distinct
malformed-envelope error. -/
theorem c2_missing_method_same_error (env : Env) (request : List (String × Json))
    (hm : (pyGetD request "method" Json.null).isStr = false) :
    handle_mcp_request env request =
      some (errEnvelope (pyGetD request "id" Json.null) (-32601)
        ("Method \x27" ++ pyStr (pyGetD request "method" Json.null) ++ "\x27 not found")) :=
  handle_unknown env request
    (fun s _ => eqStr_false_of_not_isStr (pyGetD request "method" Json.null) hm s)

/-- Witness for C2's amended theorem: a request with no `method` field. -/
theorem c2_missing_method_same_error_witness :
    handle_mcp_request env0 [("id", Json.num 7)] =
      some (errEnvelope (Json.num 7) (-32601) "Method \x27None\x27 not found") :=
  c2_missing_method_same_error env0 [("id", Json.num 7)] rfl

/-- C1 counterexample: `tools/call` of `ask_council` with `arguments={}`
(missing the required `question`) is answered with the `-32603` internal
error envelope, not a validation error: the pydantic `ValidationError`
escapes to the blanket `except Exception` clause. -/
theorem c1_internal_error_counterexample :
    handle_mcp_request env0
      [("method", Json.str "tools/call"), ("id", Json.num 1),
       ("params", Json.obj [("name", Json.str "ask_council"),
                            ("arguments", Json.obj [])])] =
      some (errEnvelope (Json.num 1) (-32603) "Internal error") := rfl

/-- C1 (amended): for every `tools/call` request naming `ask_council` whose
`arguments` object lacks the required `question` field, `handle_mcp_request`
returns the `-32603` "Internal error" envelope (the validation failure is
swallowed by the catch-all exception handler); no validation-specific error
envelope is produced. -/
theorem c1_missing_question_internal_error (env : Env)
    (request pkvs akvs : List (String × Json))
    (hm : pyGetD request "method" Json.null = Json.str "tools/call")
    (hp : (olookup request "params").getD (Json.obj []) = Json.obj pkvs)
    (hn : pyGetD pkvs "name" Json.null = Json.str "ask_council")
    (ha : pyGetD pkvs "arguments" (Json.obj []) = Json.obj akvs)
    (hq : olookup akvs "question" = none) :
    handle_mcp_request env request =
      some (errEnvelope (pyGetD request "id" Json.null) (-32603) "Internal error") := by
  simp only [handle_mcp_request, handleTry, hm, hp, hn, ha]
  simp [Json.eqStr, councilQuestionInput, hq]

/-- Witness for C1's amended theorem at a concrete request. -/
theorem c1_missing_question_internal_error_witness :
    handle_mcp_request env0
      [("method", Json.str "tools/call"), ("id", Json.num 2),
       ("params", Json.obj [("name", Json.str "ask_council"),
                            ("arguments", Json.obj [])])] =
      some (errEnvelope (Json.num 2) (-32603) "Internal error") :=
  c1_missing_question_internal_error env0
    [("method", Json.str "tools/call"), ("id", Json.num 2),
     ("params", Json.obj [("name", Json.str "ask_council"),
                          ("arguments", Json.obj [])])]
    [("name", Json.str "ask_council"), ("arguments", Json.obj [])] []
    rfl rfl rfl rfl rfl

/-- C7: a `notifications/initialized` request produces no response body at
all (`None`), which in particular differs from a response envelope carrying
an empty result; the handler is stateless, so every such request has the
same outcome. -/
theorem c7_notifications_no_body (env : Env) (request : List (String × Json))
    (hm : pyGetD request "method" Json.null = Json.str "notifications/initialized") :
    handle_mcp_request env request = none
    ∧ handle_mcp_request env request ≠
        some (Json.obj
          [("jsonrpc", Json.str "2.0"),
           ("id", pyGetD request "id" Json.null),
           ("result", Json.obj [])]) := by
  have h : handle_mcp_request env request = none := by
    simp only [handle_mcp_request, handleTry, hm]
    simp [Json.eqStr]
  exact ⟨h, by simp [h]⟩

/-- Witness for C7 at the concrete notification request. -/
theorem c7_notifications_no_body_witness :
    handle_mcp_request env0 [("method", Json.str "notifications/initialized")] = none :=
  (c7_notifications_no_body env0 [("method", Json.str "notifications/initialized")] rfl).1

/-- A `tools/call` of `ask_council` whose arguments pass pydantic validation
returns the success envelope built from the validated question. -/
theorem handle_ask_council_ok (env : Env) (request pkvs : List (String × Json)) (q : String)
    (hm : pyGetD request "method" Json.null = Json.str "tools/call")
    (hp : (olookup request "params").getD (Json.obj []) = Json.obj pkvs)
    (hn : pyGetD pkvs "name" Json.null = Json.str "ask_council")
    (hv : councilQuestionInput (pyGetD pkvs "arguments" (Json.obj [])) = Except.ok q) :
    handle_mcp_request env request =
      some (askCouncilSuccess q (pyGetD request "id" Json.null)) := by
  simp only [handle_mcp_request, handleTry, hm, hp, hn, hv]
  simp [Json.eqStr, askCouncilSuccess]

/-- C4: for every `tools/call` of `ask_council` with arguments
`(question: q)` for a non-empty string `q`, the handler returns the success
envelope; its `structuredContent.members` is the fixed three-member council
(Dr. Sarah Chen, Marcus Rodriguez, Alex Thompson, in that order) and the
text content contains the literal question text. -/
theorem c4_ask_council_result (env : Env) (request pkvs : List (String × Json)) (q : String)
    (hm : pyGetD request "method" Json.null = Json.str "tools/call")
    (hp : (olookup request "params").getD (Json.obj []) = Json.obj pkvs)
    (hn : pyGetD pkvs "name" Json.null = Json.str "ask_council")
    (ha : pyGetD pkvs "arguments" (Json.obj []) = Json.obj [("question", Json.str q)])
    (hq : 1 ≤ q.length) :
    handle_mcp_request env request =
      some (askCouncilSuccess q (pyGetD request "id" Json.null))
    ∧ respMembers (handle_mcp_request env request) = some councilMembersJson
    ∧ memberNames councilMembersJson =
        some [Json.str "Dr. Sarah Chen", Json.str "Marcus Rodriguez", Json.str "Alex Thompson"]
    ∧ ∃ pre : String,
        respTextContent (handle_mcp_request env request) = some (Json.str (pre ++ q)) := by
  have hv : councilQuestionInput (pyGetD pkvs "arguments" (Json.obj [])) = Except.ok q := by
    rw [ha]; simp [councilQuestionInput, olookup, hq]
  have hmain := handle_ask_council_ok env request pkvs q hm hp hn hv
  refine ⟨hmain, ?_, rfl, ?_⟩
  · rw [hmain]; rfl
  · exact ⟨"Your AI Council considered the question: ", by rw [hmain]; rfl⟩

/-- Witness for C4 at a concrete question with id 4. -/
theorem c4_ask_council_result_witness :
    handle_mcp_request env0
      [("method", Json.str "tools/call"), ("id", Json.num 4),
       ("params", Json.obj [("name", Json.str "ask_council"),
                            ("arguments", Json.obj [("question", Json.str "Should we launch?")])])] =
      some (askCouncilSuccess "Should we launch?" (Json.num 4)) :=
  (c4_ask_council_result env0
    [("method", Json.str "tools/call"), ("id", Json.num 4),
     ("params", Json.obj [("name", Json.str "ask_council"),
                          ("arguments", Json.obj [("question", Json.str "Should we launch?")])])]
    [("name", Json.str "ask_council"),
     ("arguments", Json.obj [("question", Json.str "Should we launch?")])]
    "Should we launch?" rfl rfl rfl rfl (by decide)).1

/-- C10: any two successful `ask_council` invocations (whatever their
questions, requests or filesystem states) carry the identical fixed
`members` sequence in their structured content; the members do not depend
on the question. -/
theorem c10_members_independent_of_question (env1 env2 : Env)
    (request1 request2 pkvs1 pkvs2 : List (String × Json)) (q1 q2 : String)
    (hm1 : pyGetD request1 "method" Json.null = Json.str "tools/call")
    (hp1 : (olookup request1 "params").getD (Json.obj []) = Json.obj pkvs1)
    (hn1 : pyGetD pkvs1 "name" Json.null = Json.str "ask_council")
    (hv1 : councilQuestionInput (pyGetD pkvs1 "arguments" (Json.obj [])) = Except.ok q1)
    (hm2 : pyGetD request2 "method" Json.null = Json.str "tools/call")
    (hp2 : (olookup request2 "params").getD (Json.obj []) = Json.obj pkvs2)
    (hn2 : pyGetD pkvs2 "name" Json.null = Json.str "ask_council")
    (hv2 : councilQuestionInput (pyGetD pkvs2 "arguments" (Json.obj [])) = Except.ok q2) :
    respMembers (handle_mcp_request env1 request1) = some councilMembersJson
    ∧ respMembers (handle_mcp_request env2 request2) = some councilMembersJson
    ∧ respMembers (handle_mcp_request env1 request1) =
        respMembers (handle_mcp_request env2 request2) := by
  have h1 := handle_ask_council_ok env1 request1 pkvs1 q1 hm1 hp1 hn1 hv1
  have h2 := handle_ask_council_ok env2 request2 pkvs2 q2 hm2 hp2 hn2 hv2
  have m1 : respMembers (handle_mcp_request env1 request1) = some councilMembersJson := by
    rw [h1]; rfl
  have m2 : respMembers (handle_mcp_request env2 request2) = some councilMembersJson := by
    rw [h2]; rfl
  exact ⟨m1, m2, m1.trans m2.symm⟩

/-- Witness for C10 at two distinct concrete questions. -/
theorem c10_members_independent_of_question_witness :
    respMembers (handle_mcp_request env0
      [("method", Json.str "tools/call"),
       ("params", Json.obj [("name", Json.str "ask_council"),
                            ("arguments", Json.obj [("question", Json.str "A")])])]) =
    respMembers (handle_mcp_request ⟨false, ""⟩
      [("method", Json.str "tools/call"), ("id", Json.num 9),
       ("params", Json.obj [("name", Json.str "ask_council"),
                            ("arguments", Json.obj [("question", Json.str "B")])])]) :=
  (c10_members_independent_of_question env0 ⟨false, ""⟩
    [("method", Json.str "tools/call"),
     ("params", Json.obj [("name", Json.str "ask_council"),
                          ("arguments", Json.obj [("question", Json.str "A")])])]
    [("method", Json.str "tools/call"), ("id", Json.num 9),
     ("params", Json.obj [("name", Json.str "ask_council"),
                          ("arguments", Json.obj [("question", Json.str "B")])])]
    [("name", Json.str "ask_council"), ("arguments", Json.obj [("question", Json.str "A")])]
    [("name", Json.str "ask_council"), ("arguments", Json.obj [("question", Json.str "B")])]
    "A" "B" rfl rfl rfl rfl rfl rfl rfl rfl).2.2

/-- C6: a `resources/read` request for the known URI
`app://your-ai-council.html` (with the template asset readable) returns a
result whose single content entry carries that URI and mimeType
`text/html`; any other URI yields the `-32602` resource-not-found error. -/
theorem c6_resources_read (env : Env) (request pkvs : List (String × Json))
    (hm : pyGetD request "method" Json.null = Json.str "resources/read")
    (hp : (olookup request "params").getD (Json.obj []) = Json.obj pkvs) :
    (pyGetD pkvs "uri" Json.null = Json.str "app://your-ai-council.html" →
      env.templateExists = true →
      handle_mcp_request env request =
        some (Json.obj
          [("jsonrpc", Json.str "2.0"),
           ("id", pyGetD request "id" Json.null),
           ("result",
            Json.obj
              [("contents",
                Json.arr
                  [Json.obj
                     [("uri", Json.str "app://your-ai-council.html"),
                      ("mimeType", Json.str "text/html"),
                      ("text", Json.str env.templateHtml)]])])]))
    ∧ ((pyGetD pkvs "uri" Json.null).eqStr "app://your-ai-council.html" = false →
      handle_mcp_request env request =
        some (errEnvelope (pyGetD request "id" Json.null) (-32602)
          ("Resource \x27" ++ pyStr (pyGetD pkvs "uri" Json.null) ++ "\x27 not found"))) := by
  constructor
  · intro hu ht
    simp only [handle_mcp_request, handleTry, hm, hp, hu, load_widget_html, ht]
    simp [Json.eqStr]
  · intro hu
    simp only [handle_mcp_request, handleTry, hm, hp, hu]
    simp [Json.eqStr]

/-- Witness for C6 at the known URI (existent template) and an unknown URI. -/
theorem c6_resources_read_witness :
    handle_mcp_request env0
      [("method", Json.str "resources/read"), ("id", Json.num 3),
       ("params", Json.obj [("uri", Json.str "app://your-ai-council.html")])] =
      some (Json.obj
        [("jsonrpc", Json.str "2.0"),
         ("id", Json.num 3),
         ("result",
          Json.obj
            [("contents",
              Json.arr
                [Json.obj
                   [("uri", Json.str "app://your-ai-council.html"),
                    ("mimeType", Json.str "text/html"),
                    ("text", Json.str env0.templateHtml)]])])])
    ∧ handle_mcp_request env0
      [("method", Json.str "resources/read"), ("id", Json.num 3),
       ("params", Json.obj [("uri", Json.str "app://other.html")])] =
      some (errEnvelope (Json.num 3) (-32602) "Resource \x27app://other.html\x27 not found") :=
  ⟨(c6_resources_read env0
      [("method", Json.str "resources/read"), ("id", Json.num 3),
       ("params", Json.obj [("uri", Json.str "app://your-ai-council.html")])]
      [("uri", Json.str "app://your-ai-council.html")] rfl rfl).1 rfl rfl,
   (c6_resources_read env0
      [("method", Json.str "resources/read"), ("id", Json.num 3),
       ("params", Json.obj [("uri", Json.str "app://other.html")])]
      [("uri", Json.str "app://other.html")] rfl rfl).2 rfl⟩

/-- C9: an `initialize` request echoes the `protocolVersion` found in its
params verbatim, defaults it to `"2025-03-26"` when the params omit it, and
always returns the same constant `capabilities` and `serverInfo`. -/
theorem c9_protocol_version_echo (env : Env) (request pkvs : List (String × Json))
    (hm : pyGetD request "method" Json.null = Json.str "initialize")
    (hp : (olookup request "params").getD (Json.obj []) = Json.obj pkvs) :
    (∀ v, olookup pkvs "protocolVersion" = some v →
      respResultField (handle_mcp_request env request) "protocolVersion" = some v)
    ∧ (olookup pkvs "protocolVersion" = none →
      respResultField (handle_mcp_request env request) "protocolVersion" =
        some (Json.str "2025-03-26"))
    ∧ respResultField (handle_mcp_request env request) "capabilities" = some capabilitiesJson
    ∧ respResultField (handle_mcp_request env request) "serverInfo" = some serverInfoJson := by
  have hmain : handle_mcp_request env request =
      some (Json.obj
        (match olookup request "id" with
         | some v => [("jsonrpc", Json.str "2.0"), ("result", initResult pkvs), ("id", v)]
         | none => [("jsonrpc", Json.str "2.0"), ("result", initResult pkvs)])) := by
    simp only [handle_mcp_request, handleTry, hm, hp]
    simp [Json.eqStr, initResult]
  have hres : respResultField (handle_mcp_request env request) "protocolVersion" =
      some (pyGetD pkvs "protocolVersion" (Json.str "2025-03-26"))
      ∧ respResultField (handle_mcp_request env request) "capabilities" = some capabilitiesJson
      ∧ respResultField (handle_mcp_request env request) "serverInfo" = some serverInfoJson := by
    rw [hmain]
    rcases olookup request "id" with _ | v <;>
      simp [respResultField, Json.getField, olookup, initResult]
  refine ⟨?_, ?_, hres.2.1, hres.2.2⟩
  · intro v hv
    rw [hres.1, pyGetD, hv, Option.getD_some]
  · intro hv
    rw [hres.1, pyGetD, hv, Option.getD_none]

/-- Witness for C9: one request carrying a protocolVersion, one omitting it. -/
theorem c9_protocol_version_echo_witness :
    respResultField (handle_mcp_request env0
      [("method", Json.str "initialize"), ("id", Json.num 1),
       ("params", Json.obj [("protocolVersion", Json.str "2024-01-01")])])
      "protocolVersion" = some (Json.str "2024-01-01")
    ∧ respResultField (handle_mcp_request env0
      [("method", Json.str "initialize"), ("params", Json.obj [])])
      "protocolVersion" = some (Json.str "2025-03-26") :=
  ⟨(c9_protocol_version_echo env0
      [("method", Json.str "initialize"), ("id", Json.num 1),
       ("params", Json.obj [("protocolVersion", Json.str "2024-01-01")])]
      [("protocolVersion", Json.str "2024-01-01")] rfl rfl).1
      (Json.str "2024-01-01") rfl,
   (c9_protocol_version_echo env0
      [("method", Json.str "initialize"), ("params", Json.obj [])]
      [] rfl rfl).2.1 rfl⟩

/-- C8: every response envelope produced by `handle_mcp_request` carries
exactly one of the fields `result` and `error`, never both and never
neither. -/
theorem c8_exactly_one_result_or_error (env : Env) (request : List (String × Json)) (r : Json)
    (h : handle_mcp_request env request = some r) : goodEnvelope r = true := by
  unfold handle_mcp_request at h
  rcases he : handleTry env request with e | o
  · rw [he] at h
    replace h : some (errEnvelope (pyGetD request "id" Json.null) (-32603) "Internal error")
        = some r := h
    simp only [Option.some.injEq] at h
    subst h
    rfl
  · rw [he] at h
    replace h : o = some r := h
    subst h
    simp only [handleTry] at he
    repeat' split at he
    all_goals simp only [Except.ok.injEq, Option.some.injEq, reduceCtorEq] at he
    all_goals subst he
    all_goals rfl

/-- Witness for C8 at a concrete `tools/list` request. -/
theorem c8_exactly_one_result_or_error_witness :
    goodEnvelope ((handle_mcp_request env0 [("method", Json.str "tools/list")]).getD Json.null)
      = true :=
  c8_exactly_one_result_or_error env0 [("method", Json.str "tools/list")]
    ((handle_mcp_request env0 [("method", Json.str "tools/list")]).getD Json.null) rfl

/-- C3 counterexample: a valid known-method request (`tools/list`) without
an `id` field is answered by an envelope that includes the `id` field with
value null, instead of omitting the field entirely. -/
theorem c3_null_id_counterexample :
    respIdField ((handle_mcp_request env0 [("method", Json.str "tools/list")]).getD Json.null)
      = some Json.null := rfl

/-- C3 (amended): when a request carries an `id`, every response produced by
`handle_mcp_request` echoes it unchanged; when the `id` is absent, only the
`initialize` response omits the `id` field, while every response to a
non-`initialize` method (in particular `tools/list`, `tools/call` and
`resources/read`) includes the `id` field with a null value. -/
theorem c3_id_echo (env : Env) (request : List (String × Json)) :
    (∀ v r, olookup request "id" = some v → handle_mcp_request env request = some r →
      respIdField r = some v)
    ∧ (olookup request "id" = none →
        pyGetD request "method" Json.null = Json.str "initialize" →
        ∀ pkvs, (olookup request "params").getD (Json.obj []) = Json.obj pkvs →
        ∀ r, handle_mcp_request env request = some r → respIdField r = none)
    ∧ (olookup request "id" = none →
        (pyGetD request "method" Json.null).eqStr "initialize" = false →
        ∀ r, handle_mcp_request env request = some r → respIdField r = some Json.null) := by
  refine ⟨?_, ?_, ?_⟩
  · intro v r hv h
    unfold handle_mcp_request at h
    rcases he : handleTry env request with e | o
    · rw [he] at h
      replace h : some (errEnvelope (pyGetD request "id" Json.null) (-32603) "Internal error")
          = some r := h
      simp only [Option.some.injEq] at h
      subst h
      simp [respIdField, Json.getField, errEnvelope, olookup, pyGetD, hv]
    · rw [he] at h
      replace h : o = some r := h
      subst h
      simp only [handleTry] at he
      repeat' split at he
      all_goals simp only [Except.ok.injEq, Option.some.injEq, reduceCtorEq] at he
      all_goals subst he
      all_goals simp_all [respIdField, Json.getField, errEnvelope, askCouncilSuccess,
        olookup, pyGetD]
  · intro hid hm pkvs hp r h
    have hmain : handle_mcp_request env request =
        some (Json.obj [("jsonrpc", Json.str "2.0"), ("result", initResult pkvs)]) := by
      simp only [handle_mcp_request, handleTry, hm, hp, hid]
      simp [Json.eqStr, initResult]
    rw [hmain] at h
    simp only [Option.some.injEq] at h
    subst h
    rfl
  · intro hid hni r h
    unfold handle_mcp_request at h
    rcases he : handleTry env request with e | o
    · rw [he] at h
      replace h : some (errEnvelope (pyGetD request "id" Json.null) (-32603) "Internal error")
          = some r := h
      simp only [Option.some.injEq] at h
      subst h
      simp [respIdField, Json.getField, errEnvelope, olookup, pyGetD, hid]
    · rw [he] at h
      replace h : o = some r := h
      subst h
      simp only [handleTry] at he
      repeat' split at he
      all_goals simp only [Except.ok.injEq, Option.some.injEq, reduceCtorEq] at he
      all_goals subst he
      all_goals simp_all [respIdField, Json.getField, errEnvelope, askCouncilSuccess,
        olookup, pyGetD]

/-- Witness for C3's amended theorem: echo of a concrete id 5 on a
`tools/list` response, and the null id of id-less `tools/list`,
`tools/call` and `resources/read` requests. -/
theorem c3_id_echo_witness :
    respIdField ((handle_mcp_request env0
      [("id", Json.num 5), ("method", Json.str "tools/list")]).getD Json.null)
      = some (Json.num 5)
    ∧ respIdField ((handle_mcp_request env0 [("method", Json.str "tools/list")]).getD Json.null)
      = some Json.null
    ∧ respIdField ((handle_mcp_request env0
        [("method", Json.str "tools/call"),
         ("params", Json.obj [("name", Json.str "ask_council"),
                              ("arguments", Json.obj [("question", Json.str "A")])])]).getD
        Json.null)
      = some Json.null
    ∧ respIdField ((handle_mcp_request env0
        [("method", Json.str "resources/read"),
         ("params", Json.obj [("uri", Json.str "app://your-ai-council.html")])]).getD
        Json.null)
      = some Json.null :=
  ⟨(c3_id_echo env0 [("id", Json.num 5), ("method", Json.str "tools/list")]).1
      (Json.num 5)
      ((handle_mcp_request env0
        [("id", Json.num 5), ("method", Json.str "tools/list")]).getD Json.null)
      rfl rfl,
   (c3_id_echo env0 [("method", Json.str "tools/list")]).2.2 rfl rfl
      ((handle_mcp_request env0 [("method", Json.str "tools/list")]).getD Json.null) rfl,
   (c3_id_echo env0
      [("method", Json.str "tools/call"),
       ("params", Json.obj [("name", Json.str "ask_council"),
                            ("arguments", Json.obj [("question", Json.str "A")])])]).2.2
      rfl rfl
      ((handle_mcp_request env0
        [("method", Json.str "tools/call"),
         ("params", Json.obj [("name", Json.str "ask_council"),
                              ("arguments", Json.obj [("question", Json.str "A")])])]).getD
        Json.null) rfl,
   (c3_id_echo env0
      [("method", Json.str "resources/read"),
       ("params", Json.obj [("uri", Json.str "app://your-ai-council.html")])]).2.2
      rfl rfl
      ((handle_mcp_request env0
        [("method", Json.str "resources/read"),
         ("params", Json.obj [("uri", Json.str "app://your-ai-council.html")])]).getD
        Json.null) rfl⟩
